import Mathlib

/-!
Shallow embedding of the parallax component of `src/script.js` (the
`initParallax` / `updateParallax` / `requestTick` functions and the
resize-debounce wiring).  JavaScript numbers are modelled as exact
rationals; the DOM element is modelled by the fields the code reads
(`data-depth` attribute, `getBoundingClientRect().top`, `offsetHeight`)
and the one field it writes (`style.transform`).
-/

namespace Chainbro

/-- Numeric value of a decimal digit character. -/
def digitVal (c : Char) : Nat := c.toNat - '0'.toNat

/-- Splits a character list into its longest decimal-digit prefix and the rest. -/
def takeDigits : List Char → List Char × List Char
  | [] => ([], [])
  | c :: cs =>
      if c.isDigit then
        let p := takeDigits cs
        (c :: p.1, p.2)
      else ([], c :: cs)

/-- Value of a digit string read most-significant first. -/
def digitsToNat (ds : List Char) : Nat := ds.foldl (fun n c => 10 * n + digitVal c) 0

/-- Consumes an optional leading sign, returning the sign as a multiplier. -/
def parseSign : List Char → Int × List Char
  | '+' :: cs => (1, cs)
  | '-' :: cs => (-1, cs)
  | cs => (1, cs)

/-- Reads the digits of an exponent part; an empty digit run contributes exponent 0
(JavaScript's parseFloat ignores a dangling exponent marker). -/
def parseExpDigits (sign : Int) (cs : List Char) : Int :=
  let p := takeDigits cs
  if p.1 = [] then 0 else sign * (digitsToNat p.1 : Int)

/-- Reads an optional exponent part (e or E, optional sign, digits). -/
def parseExp : List Char → Int
  | 'e' :: '+' :: cs => parseExpDigits 1 cs
  | 'e' :: '-' :: cs => parseExpDigits (-1) cs
  | 'e' :: cs => parseExpDigits 1 cs
  | 'E' :: '+' :: cs => parseExpDigits 1 cs
  | 'E' :: '-' :: cs => parseExpDigits (-1) cs
  | 'E' :: cs => parseExpDigits 1 cs
  | _ => 0

/-- Lexical result of scanning a decimal literal: sign, integer digits,
fraction digits, exponent. -/
structure NumScan where
  sign : Int
  intDigits : List Char
  fracDigits : List Char
  exp : Int
  deriving DecidableEq, Repr

/-- Lexical phase of parseFloat: skip leading whitespace, read an optional
sign, then the longest prefix of the form digits [ . digits ] [ exponent ];
`none` models NaN (no leading number at all).  Trailing non-numeric
characters are ignored, as in the browser. -/
def scanFloat (s : String) : Option NumScan :=
  let cs := s.data.dropWhile Char.isWhitespace
  let sp := parseSign cs
  let ip := takeDigits sp.2
  let fp := match ip.2 with
    | '.' :: r => takeDigits r
    | r => ([], r)
  if ip.1 = [] ∧ fp.1 = [] then none
  else some ⟨sp.1, ip.1, fp.1, parseExp fp.2⟩

/-- Numeric value of a scanned decimal literal. -/
def scanValue (p : NumScan) : ℚ :=
  (p.sign : ℚ) * ((digitsToNat p.intDigits : ℚ) +
    (digitsToNat p.fracDigits : ℚ) / (10 : ℚ) ^ p.fracDigits.length) *
    (10 : ℚ) ^ p.exp

/-- Model of JavaScript's parseFloat on finite decimal input; `none` models
NaN. -/
def parseFloat (s : String) : Option ℚ :=
  (scanFloat s).map scanValue

/-- Model of the JavaScript expression `v || 0`: NaN (here `none`) and 0 are
falsy and give 0; any other number is returned unchanged. -/
def jsOrZero (v : Option ℚ) : ℚ :=
  match v with
  | none => 0
  | some q => if q = 0 then 0 else q

/-- Model of `parseFloat(element.getAttribute('data-depth')) || 0`: a missing
attribute is `null`, which parseFloat turns into NaN, hence 0. -/
def parseDepth (attr : Option String) : ℚ :=
  match attr with
  | none => 0
  | some s => jsOrZero (parseFloat s)

/-- A vertical-translation transform value, modelling the string
translate3d(x, y px, z) that `updateParallax` writes to `style.transform`. -/
structure Translate3d where
  x : ℚ
  y : ℚ
  z : ℚ
  deriving DecidableEq, Repr

/-- A trackable element as seen by `updateParallax`: the `data-depth`
attribute (absent = `none`), the viewport-relative top returned by
`getBoundingClientRect().top`, the rendered `offsetHeight`, and the current
`style.transform` (absent = `none`). -/
structure Elem where
  dataDepth : Option String
  rectTop : ℚ
  offsetHeight : ℚ
  transform : Option Translate3d
  deriving DecidableEq, Repr

/-- Viewport state read fresh at the start of each pass: `window.scrollY`
and `window.innerHeight`. -/
structure Viewport where
  scrollY : ℚ
  innerHeight : ℚ
  deriving DecidableEq, Repr

/-- Depth coefficient of an element, as computed at line 46 of script.js. -/
def depth (e : Elem) : ℚ := parseDepth e.dataDepth

/-- Document-relative top: `getBoundingClientRect().top + scrollY` (line 47). -/
def elementTop (vp : Viewport) (e : Elem) : ℚ := e.rectTop + vp.scrollY

/-- The `isInViewport` test of lines 51-54: the element is active when
`elementTop < scrollY + windowHeight + 200` and
`elementTop + elementHeight > scrollY - 200`. -/
def isInViewport (vp : Viewport) (e : Elem) : Bool :=
  decide (elementTop vp e < vp.scrollY + vp.innerHeight + 200) &&
  decide (elementTop vp e + e.offsetHeight > vp.scrollY - 200)

/-- The offset expression of line 60, factored over an explicit top and depth:
`(scrollY - elementTop + windowHeight / 2) * depth`. -/
def offsetOf (vp : Viewport) (eTop d : ℚ) : ℚ :=
  (vp.scrollY - eTop + vp.innerHeight / 2) * d

/-- The offset computed for an element in a pass. -/
def offset (vp : Viewport) (e : Elem) : ℚ :=
  offsetOf vp (elementTop vp e) (depth e)

/-- Per-element body of `updateParallax` (lines 44-65): an active element has
its transform overwritten with translate3d(0, offset px, 0); an inactive
element is left untouched. -/
def updateElem (vp : Viewport) (e : Elem) : Elem :=
  if isInViewport vp e then { e with transform := some ⟨0, offset vp e, 0⟩ } else e

/-- One full computation pass of `updateParallax` over all trackable elements. -/
def updateParallax (vp : Viewport) (es : List Elem) : List Elem :=
  es.map (updateElem vp)

/-- Scheduler state for the scroll path (lines 35 and 71-77): the `ticking`
flag, the number of `updateParallax` callbacks queued via
`requestAnimationFrame` for the next refresh, and a counter of completed
recomputation passes. -/
structure SchedState where
  ticking : Bool
  pending : Nat
  passes : Nat
  deriving DecidableEq, Repr

/-- The `requestTick` scroll handler (lines 71-76): when `ticking` is unset,
queue one `updateParallax` callback and set the flag; otherwise do nothing. -/
def requestTick (st : SchedState) : SchedState :=
  if st.ticking then st
  else { st with pending := st.pending + 1, ticking := true }

/-- A display refresh: every queued callback runs (one full recomputation
pass each), and each run ends by clearing `ticking` (line 67). -/
def runFrame (st : SchedState) : SchedState :=
  { st with
    pending := 0
    passes := st.passes + st.pending
    ticking := if st.pending = 0 then st.ticking else false }

/-- An invocation of `updateParallax` from outside the refresh queue: the
resize-debounce timer (line 90) or the initial direct call (line 84).  It
runs one pass and clears `ticking` (line 67) without consuming the queue. -/
def runTimer (st : SchedState) : SchedState :=
  { st with passes := st.passes + 1, ticking := false }

/-- Events of the scheduling subsystem: a scroll notification, a display
refresh, and a direct `updateParallax` invocation by the resize-debounce
timer (or the initial call). -/
inductive SEv
  | scroll
  | frame
  | timer
  deriving DecidableEq, Repr

/-- One scheduler transition. -/
def schedStep (st : SchedState) : SEv → SchedState
  | SEv.scroll => requestTick st
  | SEv.frame => runFrame st
  | SEv.timer => runTimer st

/-- Runs the scheduler over a sequence of events. -/
def schedRun (st : SchedState) (evs : List SEv) : SchedState :=
  evs.foldl schedStep st

/-- Scheduling-flag invariant: a callback is queued exactly when `ticking`
is set. -/
def SchedInv (st : SchedState) : Prop :=
  st.pending = if st.ticking then 1 else 0

/-- Observable startup actions of `initParallax` (lines 22-92), in program
order. -/
inductive InitAction
  | checkReducedMotion
  | queryElements
  | addScrollListener
  | initialPass
  | addResizeListener
  deriving DecidableEq, Repr

/-- The `initParallax` startup path (lines 22-92): the reduced-motion
preference is tested first and aborts everything; with no trackable
elements nothing is registered; otherwise the scroll listener is attached,
one initial pass runs, and the debounced resize listener is attached.
Returns the action trace and the resulting elements. -/
def initParallax (pref : Bool) (vp : Viewport) (es : List Elem) :
    List InitAction × List Elem :=
  if pref then ([InitAction.checkReducedMotion], es)
  else if es.isEmpty then
    ([InitAction.checkReducedMotion, InitAction.queryElements], es)
  else
    ([InitAction.checkReducedMotion, InitAction.queryElements,
      InitAction.addScrollListener, InitAction.initialPass,
      InitAction.addResizeListener],
     updateParallax vp es)

/-- Resize-debounce model (lines 87-91): given the strictly ordered times of
the resize events, returns the times at which the 150ms timer actually
fires.  Each event clears the previous timer, so the timer set at an event
survives only if the next event comes 150ms or more later. -/
def debounceFires : List ℚ → List ℚ
  | [] => []
  | [t] => [t + 150]
  | t1 :: t2 :: rest =>
      if t2 - t1 < 150 then debounceFires (t2 :: rest)
      else (t1 + 150) :: debounceFires (t2 :: rest)

/-- Helper: a scroll or refresh step preserves the flag invariant (a timer
fire does not: it clears `ticking` while a callback may stay queued). -/
theorem schedInv_step (st : SchedState) (ev : SEv) (hev : ev ≠ SEv.timer)
    (h : SchedInv st) : SchedInv (schedStep st ev) := by
  rcases st with ⟨t, p, ps⟩
  rcases ev with _ | _ | _
  · rcases t with _ | _ <;> simp_all [SchedInv, schedStep, requestTick]
  · rcases t with _ | _ <;> simp_all [SchedInv, schedStep, runFrame]
  · exact absurd rfl hev

/-- Helper: the flag invariant holds along any timer-free event sequence. -/
theorem schedInv_run (st : SchedState) (evs : List SEv) (h : SchedInv st)
    (hevs : SEv.timer ∉ evs) : SchedInv (schedRun st evs) := by
  induction evs generalizing st with
  | nil => exact h
  | cons ev evs ih =>
      rw [List.mem_cons] at hevs
      push_neg at hevs
      exact ih (schedStep st ev) (schedInv_step st ev hevs.1.symm h) hevs.2

/-- Helper: a second scroll notification before the refresh is a no-op. -/
theorem requestTick_requestTick (st : SchedState) :
    requestTick (requestTick st) = requestTick st := by
  rcases st with ⟨t, p, ps⟩
  rcases t with _ | _ <;> simp [requestTick]

/-- Helper: any positive number of consecutive scroll notifications acts
like a single one. -/
theorem schedRun_replicate_scroll (st : SchedState) (n : Nat) :
    schedRun st (List.replicate (n + 1) SEv.scroll) = requestTick st := by
  induction n generalizing st with
  | zero => rfl
  | succ n ih =>
      rw [List.replicate_succ]
      show schedRun (requestTick st) (List.replicate (n + 1) SEv.scroll) = requestTick st
      rw [ih, requestTick_requestTick]

/-- Helper: running the scheduler over a concatenation is running it over
each part in turn. -/
theorem schedRun_append (st : SchedState) (l1 l2 : List SEv) :
    schedRun st (l1 ++ l2) = schedRun (schedRun st l1) l2 := by
  simp [schedRun, List.foldl_append]

/-- Helper: one pass does not change the geometry an element reports, so the
per-element update is idempotent. -/
theorem updateElem_idem (vp : Viewport) (e : Elem) :
    updateElem vp (updateElem vp e) = updateElem vp e := by
  rcases h : isInViewport vp e with _ | _
  · simp [updateElem, h]
  · have h2 : isInViewport vp { e with transform := some ⟨0, offset vp e, 0⟩ } = true := h
    simp only [updateElem, h, h2, if_true]
    rfl

/-- C1: for every trackable element that passes the visibility test, the
applied vertical offset equals (s - elementTop + v/2) * d; concretely, for
elementTop = 1000 (rectTop 500 at s = 500), h = 100, v = 800, s = 500 the
element is active and the offset equals -100 * d. -/
theorem offset_formula_active :
    (∀ (vp : Viewport) (e : Elem), isInViewport vp e = true →
      (updateElem vp e).transform =
        some ⟨0, (vp.scrollY - elementTop vp e + vp.innerHeight / 2) * depth e, 0⟩) ∧
    (∀ a : Option String,
      isInViewport ⟨500, 800⟩ ⟨a, 500, 100, none⟩ = true ∧
      offset ⟨500, 800⟩ ⟨a, 500, 100, none⟩ = -100 * parseDepth a) := by
  constructor
  · intro vp e h
    simp [updateElem, h, offset, offsetOf]
  · intro a
    constructor
    · norm_num [isInViewport, elementTop]
    · simp [offset, offsetOf, elementTop, depth]
      ring

/-- Witness for C1: at scrollY = 500, innerHeight = 800, a depth-2 element
with rectTop 500 and height 100 gets offset (500 - 1000 + 400) * 2 = -200. -/
theorem offset_formula_active_witness :
    (updateElem ⟨500, 800⟩ ⟨some "2", 500, 100, none⟩).transform = some ⟨0, -200, 0⟩ := by
  have h := offset_formula_active.1 ⟨500, 800⟩ ⟨some "2", 500, 100, none⟩
    (by norm_num [isInViewport, elementTop])
  rw [h]
  have h2 : scanFloat "2" = some ⟨1, ['2'], [], 0⟩ := rfl
  have h3 : digitsToNat ['2'] = 2 := rfl
  have h4 : digitsToNat [] = 0 := rfl
  norm_num [elementTop, depth, parseDepth, parseFloat, h2, scanValue, h3, h4, jsOrZero]

/-- C2: an element is active iff elementTop < s + v + 200 and
elementTop + h > s - 200; inactive elements are left untouched; with
elementTop = 1000, h = 100, v = 800 the active scroll range is exactly the
open interval (0, 1300). -/
theorem visibility_test :
    (∀ (vp : Viewport) (e : Elem), isInViewport vp e = true ↔
      (elementTop vp e < vp.scrollY + vp.innerHeight + 200 ∧
       elementTop vp e + e.offsetHeight > vp.scrollY - 200)) ∧
    (∀ (vp : Viewport) (e : Elem), isInViewport vp e = false → updateElem vp e = e) ∧
    (∀ s : ℚ, isInViewport ⟨s, 800⟩ ⟨none, 1000 - s, 100, none⟩ = true ↔
      (0 < s ∧ s < 1300)) := by
  refine ⟨fun vp e => ?_, fun vp e h => ?_, fun s => ?_⟩
  · simp [isInViewport]
  · simp [updateElem, h]
  · simp only [isInViewport, elementTop, Bool.and_eq_true, decide_eq_true_eq]
    constructor
    · rintro ⟨h1, h2⟩
      constructor <;> linarith
    · rintro ⟨h1, h2⟩
      constructor <;> linarith

/-- Witness for C2: at s = 5000 the example element is inactive and left
untouched, and s = 500 lies in the active interval. -/
theorem visibility_test_witness :
    updateElem ⟨5000, 800⟩ ⟨none, 1000 - 5000, 100, none⟩ = ⟨none, 1000 - 5000, 100, none⟩ ∧
    (0 < (500 : ℚ) ∧ (500 : ℚ) < 1300) := by
  constructor
  · exact visibility_test.2.1 ⟨5000, 800⟩ ⟨none, 1000 - 5000, 100, none⟩
      (by norm_num [isInViewport, elementTop])
  · exact (visibility_test.2.2 500).mp (by norm_num [isInViewport, elementTop])

/-- C6: a missing or unparseable depth attribute yields coefficient 0, and a
zero depth always yields offset 0; all of these functions are total, so no
error is ever produced. -/
theorem depth_default_zero :
    parseDepth none = 0 ∧
    (∀ s : String, parseFloat s = none → parseDepth (some s) = 0) ∧
    (∀ (vp : Viewport) (e : Elem), depth e = 0 → offset vp e = 0) := by
  refine ⟨rfl, fun s h => ?_, fun vp e h => ?_⟩
  · simp [parseDepth, h, jsOrZero]
  · simp [offset, offsetOf, h]

/-- Witness for C6: the attribute "abc" has no numeric prefix and yields
depth 0, and a zero-depth element gets offset 0. -/
theorem depth_default_zero_witness :
    parseDepth (some "abc") = 0 ∧
    offset ⟨0, 800⟩ ⟨none, 0, 0, none⟩ = 0 :=
  ⟨depth_default_zero.2.1 "abc" rfl, depth_default_zero.2.2 ⟨0, 800⟩ ⟨none, 0, 0, none⟩ rfl⟩

/-- C7: with scroll offset, viewport height, element geometry and depth
attributes unchanged, a second pass computes the same offset for every
element, and running the pass twice equals running it once. -/
theorem pass_idempotent :
    (∀ (vp : Viewport) (e : Elem),
      offset vp (updateElem vp e) = offset vp e ∧
      isInViewport vp (updateElem vp e) = isInViewport vp e) ∧
    (∀ (vp : Viewport) (es : List Elem),
      updateParallax vp (updateParallax vp es) = updateParallax vp es) := by
  constructor
  · intro vp e
    rcases h : isInViewport vp e with _ | _
    · simp [updateElem, h]
    · simp only [updateElem, h, if_true]
      exact ⟨rfl, h⟩
  · intro vp es
    induction es with
    | nil => rfl
    | cons e es ih =>
        simp only [updateParallax, List.map_cons, List.map_map] at ih ⊢
        simp [updateElem_idem, ih]

/-- C8: for fixed scroll offset, element top and viewport height, the offset
is linear in the depth coefficient; doubling d doubles the offset. -/
theorem offset_linear_in_depth :
    ∀ (vp : Viewport) (eTop d k : ℚ),
      offsetOf vp eTop (2 * d) = 2 * offsetOf vp eTop d ∧
      offsetOf vp eTop (k * d) = k * offsetOf vp eTop d := by
  intro vp eTop d k
  constructor <;> (simp only [offsetOf]; ring)

/-- C9: an active element has its transform overwritten unconditionally,
whatever transform it carried before, and at depth 0 it is set to the zero
translation translate3d(0, 0px, 0). -/
theorem active_transform_overwritten :
    ∀ (vp : Viewport) (e : Elem) (t : Option Translate3d),
      isInViewport vp e = true →
      ((updateElem vp { e with transform := t }).transform = some ⟨0, offset vp e, 0⟩ ∧
       (depth e = 0 →
         (updateElem vp { e with transform := t }).transform = some ⟨0, 0, 0⟩)) := by
  intro vp e t h
  have h2 : isInViewport vp { e with transform := t } = true := h
  constructor
  · simp [updateElem, h2, offset, offsetOf, elementTop, depth]
  · intro hd
    simp [updateElem, h2, offset, offsetOf, elementTop, depth]
    simp only [depth] at hd
    simp [hd]

/-- Witness for C9: a depth-less (coefficient 0) active element carrying a
prior transform of y = 77 has it overwritten with the zero translation. -/
theorem active_transform_overwritten_witness :
    (updateElem ⟨500, 800⟩ ⟨none, 100, 50, some ⟨0, 77, 0⟩⟩).transform = some ⟨0, 0, 0⟩ :=
  (active_transform_overwritten ⟨500, 800⟩ ⟨none, 100, 50, none⟩ (some ⟨0, 77, 0⟩)
    (by norm_num [isInViewport, elementTop])).2 rfl

/-- C10: a depth attribute with a valid numeric prefix followed by junk
parses to the prefix value (1.5 for "1.5abc"), not the 0 fallback; the
fallback applies exactly when the parse yields no leading number. -/
theorem numeric_prefix_parsed :
    parseFloat "1.5abc" = some (3 / 2) ∧
    parseDepth (some "1.5abc") = 3 / 2 ∧
    (∀ (s : String) (q : ℚ), parseFloat s = some q → parseDepth (some s) = q) ∧
    (∀ s : String, parseFloat s = none → parseDepth (some s) = 0) := by
  have hscan : scanFloat "1.5abc" = some ⟨1, ['1'], ['5'], 0⟩ := rfl
  refine ⟨?_, ?_, fun s q h => ?_, fun s h => ?_⟩
  · simp [parseFloat, hscan, scanValue, digitsToNat, digitVal]
    norm_num
  · simp [parseDepth, parseFloat, hscan, jsOrZero, scanValue, digitsToNat, digitVal]
    norm_num
  · rcases eq_or_ne q 0 with hq | hq <;> simp [parseDepth, h, jsOrZero, hq]
  · simp [parseDepth, h, jsOrZero]

/-- Witness for C10: "2.75xyz" parses to 11/4 and that value is used as the
depth coefficient. -/
theorem numeric_prefix_parsed_witness :
    parseDepth (some "2.75xyz") = 11 / 4 := by
  refine numeric_prefix_parsed.2.2.1 "2.75xyz" (11 / 4) ?_
  have hscan : scanFloat "2.75xyz" = some ⟨1, ['2'], ['7', '5'], 0⟩ := rfl
  simp [parseFloat, hscan, scanValue, digitsToNat, digitVal]
  norm_num

/-- C3 (amended): in executions free of direct `updateParallax` invocations
(no resize-debounce timer fire, no initial call) the ticking flag keeps at
most one computation queued at a time, a scroll notification never clears
the flag, a refresh with a queued computation runs exactly one pass and
clears the flag, a refresh with nothing queued does nothing, scroll
notifications after the first within a refresh interval are no-ops, and any
positive number of scroll notifications followed by a refresh yields
exactly one pass.  The unrestricted claim is false: see the
counterexample below, where a timer fire between a queued callback and its
refresh clears the flag early. -/
theorem scroll_scheduling_coalesces :
    (∀ (st : SchedState) (evs : List SEv), SchedInv st → SEv.timer ∉ evs →
      SchedInv (schedRun st evs) ∧ (schedRun st evs).pending ≤ 1) ∧
    (∀ st : SchedState, (requestTick st).ticking = true) ∧
    (∀ st : SchedState, SchedInv st → st.ticking = true →
      runFrame st = ⟨false, 0, st.passes + 1⟩) ∧
    (∀ st : SchedState, SchedInv st → st.ticking = false → runFrame st = st) ∧
    (∀ (st : SchedState) (n : Nat),
      schedRun st (List.replicate (n + 1) SEv.scroll) = schedRun st [SEv.scroll]) ∧
    (∀ (st : SchedState) (n : Nat), SchedInv st → st.ticking = false →
      (schedRun st (List.replicate (n + 1) SEv.scroll ++ [SEv.frame])).passes =
        st.passes + 1) := by
  refine ⟨fun st evs h hevs => ?_, fun st => ?_, fun st h ht => ?_, fun st h ht => ?_,
    fun st n => ?_, fun st n h ht => ?_⟩
  · have hinv := schedInv_run st evs h hevs
    refine ⟨hinv, ?_⟩
    rw [SchedInv] at hinv
    rw [hinv]
    split <;> simp
  · rcases st with ⟨t, p, ps⟩
    rcases t with _ | _ <;> simp [requestTick]
  · rcases st with ⟨t, p, ps⟩
    simp only at ht
    subst ht
    rw [SchedInv] at h
    simp only [if_true] at h
    subst h
    simp [runFrame]
  · rcases st with ⟨t, p, ps⟩
    simp only at ht
    subst ht
    rw [SchedInv] at h
    simp only [if_neg Bool.false_ne_true] at h
    subst h
    simp [runFrame]
  · rw [schedRun_replicate_scroll]
    rfl
  · rcases st with ⟨t, p, ps⟩
    simp only at ht
    subst ht
    rw [SchedInv] at h
    simp only [if_neg Bool.false_ne_true] at h
    subst h
    rw [schedRun_append, schedRun_replicate_scroll]
    simp [schedRun, schedStep, requestTick, runFrame]

/-- Counterexample for C3 as stated: from the idle state, the realizable
sequence scroll, debounce-timer fire, scroll leaves two callbacks queued
for the next refresh (the second scroll was not a no-op), and the refresh
then runs two passes (three in total with the timer's own pass) — refuting
"at most one computation queued at any time", "the flag is cleared exactly
when the queued computation runs", and "exactly one recomputation pass per
refresh interval". -/
theorem scroll_scheduling_counterexample :
    (schedRun ⟨false, 0, 0⟩ [SEv.scroll, SEv.timer, SEv.scroll]).pending = 2 ∧
    (schedRun ⟨false, 0, 0⟩ [SEv.scroll, SEv.timer, SEv.scroll, SEv.frame]).passes = 3 :=
  ⟨rfl, rfl⟩

/-- Witness for C3 (amended): from the idle state, a timer-free run of two
scrolls and one refresh keeps at most one callback queued, and three scroll
notifications followed by one refresh produce exactly one recomputation
pass. -/
theorem scroll_scheduling_coalesces_witness :
    (schedRun ⟨false, 0, 0⟩ [SEv.scroll, SEv.scroll, SEv.frame]).pending ≤ 1 ∧
    (schedRun ⟨false, 0, 0⟩ (List.replicate 3 SEv.scroll ++ [SEv.frame])).passes = 0 + 1 :=
  ⟨(scroll_scheduling_coalesces.1 ⟨false, 0, 0⟩ [SEv.scroll, SEv.scroll, SEv.frame]
      rfl (by decide)).2,
   scroll_scheduling_coalesces.2.2.2.2.2 ⟨false, 0, 0⟩ 2 rfl rfl⟩

/-- C4: with the reduced-motion preference set, startup only performs the
preference check: no scroll or resize listener is registered, no pass runs,
and no element is modified; in every startup the preference check happens
exactly once and is the first action, before any listener is attached. -/
theorem reduced_motion_disables :
    ∀ (vp : Viewport) (es : List Elem),
      ((initParallax true vp es).1 = [InitAction.checkReducedMotion] ∧
       (initParallax true vp es).2 = es ∧
       (initParallax true vp es).1.count InitAction.addScrollListener = 0 ∧
       (initParallax true vp es).1.count InitAction.addResizeListener = 0 ∧
       (initParallax true vp es).1.count InitAction.initialPass = 0) ∧
      (∀ pref : Bool,
        (initParallax pref vp es).1.count InitAction.checkReducedMotion = 1 ∧
        (initParallax pref vp es).1.head? = some InitAction.checkReducedMotion) := by
  intro vp es
  constructor
  · exact ⟨rfl, rfl, rfl, rfl, rfl⟩
  · intro pref
    rcases pref with _ | _
    · rcases hes : es.isEmpty with _ | _ <;> simp [initParallax, hes, List.count_cons]
    · exact ⟨rfl, rfl⟩

/-- C5: a resize event arriving less than 150ms after the previous one
cancels the previous timer, and a burst of resize events whose consecutive
gaps are all under 150ms fires exactly one recomputation, 150ms after the
last event. -/
theorem resize_debounce :
    (∀ (t1 t2 : ℚ) (rest : List ℚ), t2 - t1 < 150 →
      debounceFires (t1 :: t2 :: rest) = debounceFires (t2 :: rest)) ∧
    (∀ (ts : List ℚ) (t : ℚ),
      List.Chain' (fun a b => b - a < 150) (ts ++ [t]) →
      debounceFires (ts ++ [t]) = [t + 150]) := by
  constructor
  · intro t1 t2 rest h
    simp [debounceFires, h]
  · intro ts
    induction ts with
    | nil => intro t _; rfl
    | cons a ts ih =>
        intro t hc
        rcases ts with _ | ⟨b, ts2⟩
        · simp only [List.cons_append, List.nil_append] at hc ⊢
          rw [List.chain'_cons] at hc
          simp [debounceFires, hc.1]
        · simp only [List.cons_append] at hc ⊢
          rw [List.chain'_cons] at hc
          have h2 := ih t hc.2
          simp only [List.cons_append] at h2
          simp [debounceFires, hc.1, h2]

/-- Witness for C5: resize events at times 0, 100, 190 (gaps 100 and 90)
fire exactly one recomputation, at time 340 = 190 + 150. -/
theorem resize_debounce_witness :
    debounceFires [0, 100, 190] = [(340 : ℚ)] := by
  have h := resize_debounce.2 [0, 100] 190 (by norm_num [List.chain'_cons])
  have e : ([0, 100] ++ [190] : List ℚ) = [0, 100, 190] := rfl
  rw [e] at h
  rw [h]
  norm_num

end Chainbro
